import Mathlib

/-!
Shallow embedding of `src/SimpleApi/app/main.py`, a FastAPI service with two
endpoints:

* `GET /ping` returning `{"status": "ok"}` (main.py lines 8-10);
* `POST /add` taking a pydantic model `AddRequest` with integer fields
  `a` and `b` (main.py lines 13-15) and returning
  `{"a": a, "b": b, "result": a + b}` (main.py lines 17-19).

The request body is modelled as a JSON value as produced by Python's `json`
parsing: integer literals become Python `int` (arbitrary precision, modelled
by `Int`), decimal literals become Python `float` (modelled exactly by `ℚ`,
which is faithful for the integrality checks performed here). Validation of
`AddRequest` follows pydantic v2 default (lax) JSON validation for `int`
fields: integers are accepted, floats are accepted exactly when they have no
fractional part, numeric strings are coerced, and booleans, nulls, arrays and
objects are rejected. A validation failure yields FastAPI's 422 response whose
body lists one error per offending field with its location `["body", field]`.
-/

namespace SimpleApi

/-- JSON values as parsed from a request body by Python's `json` module.
Integer literals parse to Python `int` (constructor `int`), other numeric
literals to `float`, modelled exactly as rationals (constructor `num`).
An `obj` models the parsed Python `dict`; its keys are unique. -/
inductive Json : Type where
  | null : Json
  | bool : Bool → Json
  | int : Int → Json
  | num : ℚ → Json
  | str : String → Json
  | arr : List Json → Json
  | obj : List (String × Json) → Json

/-- The pydantic model `AddRequest` (main.py lines 13-15): two required
integer fields `a` and `b`. -/
structure AddRequest where
  a : Int
  b : Int
deriving DecidableEq

/-- A single pydantic validation error for the `AddRequest` body:
a required field is missing, a field value is not (coercible to) an
integer, or the body itself is not a JSON object. -/
inductive ValidationError : Type where
  | missing : String → ValidationError
  | intType : String → ValidationError
  | notDict : ValidationError
deriving DecidableEq

/-- The `loc` entry FastAPI reports for a validation error. -/
def ValidationError.loc : ValidationError → List String
  | ValidationError.missing f => ["body", f]
  | ValidationError.intType f => ["body", f]
  | ValidationError.notDict => ["body"]

/-- The `msg` entry FastAPI reports for a validation error. -/
def ValidationError.msg : ValidationError → String
  | ValidationError.missing _ => "Field required"
  | ValidationError.intType _ => "Input should be a valid integer"
  | ValidationError.notDict => "Input should be a valid dictionary"

/-- Parse a decimal integer string: an optional sign followed by one or
more digits, as accepted by pydantic's numeric-string coercion. -/
def parseDigits : List Char → Option Nat
  | [] => none
  | cs =>
    if cs.all Char.isDigit then
      some (cs.foldl (fun n c => 10 * n + (c.toNat - 48)) 0)
    else
      none

/-- String-to-integer coercion used by pydantic lax validation. -/
def parseIntStr (s : String) : Option Int :=
  match s.toList with
  | '-' :: cs => (parseDigits cs).map (fun n => -(n : Int))
  | '+' :: cs => (parseDigits cs).map (fun n => (n : Int))
  | cs => (parseDigits cs).map (fun n => (n : Int))

/-- Pydantic v2 lax JSON validation of a single value against `int`:
integers are accepted as is, floats exactly when integral, numeric strings
are coerced; booleans, nulls, arrays and objects are rejected. -/
def coerceInt : Json → Option Int
  | Json.int n => some n
  | Json.num q => if q.den = 1 then some q.num else none
  | Json.str s => parseIntStr s
  | _ => none

/-- Validate one required `int` field of `AddRequest` against the parsed
body object. -/
def validateField (name : String) (fields : List (String × Json)) :
    Except ValidationError Int :=
  match List.lookup name fields with
  | none => Except.error (ValidationError.missing name)
  | some v =>
    match coerceInt v with
    | none => Except.error (ValidationError.intType name)
    | some n => Except.ok n

/-- Combine the two per-field validation results the way pydantic does:
errors are collected for every offending field, in field declaration
order (`a` before `b`). -/
def combine : Except ValidationError Int → Except ValidationError Int →
    Except (List ValidationError) AddRequest
  | Except.ok a, Except.ok b => Except.ok ⟨a, b⟩
  | Except.ok _, Except.error eb => Except.error [eb]
  | Except.error ea, Except.ok _ => Except.error [ea]
  | Except.error ea, Except.error eb => Except.error [ea, eb]

/-- Full pydantic validation of the request body against `AddRequest`
(main.py lines 13-15): the body must be a JSON object providing integer
values (after lax coercion) for the required fields `a` and `b`. -/
def validateAddRequest : Json → Except (List ValidationError) AddRequest
  | Json.obj fields => combine (validateField "a" fields) (validateField "b" fields)
  | _ => Except.error [ValidationError.notDict]

/-- An HTTP response: a status code and a JSON body. -/
structure Response where
  status : Nat
  body : Json

/-- The JSON rendering of one entry of FastAPI's 422 `detail` list. -/
def errorDetail (e : ValidationError) : Json :=
  Json.obj [("loc", Json.arr (e.loc.map Json.str)), ("msg", Json.str e.msg)]

/-- FastAPI's 422 response for a request-validation failure: a structured
body listing every validation error with its location. -/
def validationErrorResponse (errs : List ValidationError) : Response :=
  ⟨422, Json.obj [("detail", Json.arr (errs.map errorDetail))]⟩

/-- The `ping` handler (main.py lines 8-10):
`return JSONResponse(content={"status": "ok"})`. -/
def ping : Response :=
  ⟨200, Json.obj [("status", Json.str "ok")]⟩

/-- The `add` handler (main.py lines 17-19), reached only with a validated
`AddRequest`: `return JSONResponse(content={"a": data.a, "b": data.b,
"result": data.a + data.b})`. -/
def add (data : AddRequest) : Response :=
  ⟨200, Json.obj [("a", Json.int data.a), ("b", Json.int data.b),
                  ("result", Json.int (data.a + data.b))]⟩

/-- `POST /add` as a whole: FastAPI validates the body against
`AddRequest`; on success the `add` handler runs, otherwise the 422
validation response is returned and the handler is never reached. -/
def handleAdd (body : Json) : Response :=
  match validateAddRequest body with
  | Except.ok data => add data
  | Except.error errs => validationErrorResponse errs

/-- An incoming HTTP request: method, path, and optional parsed JSON body. -/
structure Request where
  method : String
  path : String
  body : Option Json

/-- FastAPI's response when the path matches a route but the method none
of its handlers. -/
def methodNotAllowed : Response :=
  ⟨405, Json.obj [("detail", Json.str "Method Not Allowed")]⟩

/-- FastAPI's response for an unknown path. -/
def notFound : Response :=
  ⟨404, Json.obj [("detail", Json.str "Not Found")]⟩

/-- The router of `app`: `GET /ping` is handled by `ping`, `POST /add` by
validation followed by `add`; other method/path combinations get FastAPI's
default client-error responses. A `POST /add` with no body at all fails
validation (the absent body is not a JSON object). -/
def handle (r : Request) : Response :=
  if r.path = "/ping" then
    if r.method = "GET" then ping else methodNotAllowed
  else if r.path = "/add" then
    if r.method = "POST" then handleAdd (r.body.getD Json.null) else methodNotAllowed
  else notFound

/-- The server state. The FastAPI `app` object holds only the immutable
route table; the module has no mutable globals, so there is nothing in the
state for a handler to read or write. -/
structure ServerState where
  mk ::

/-- One request/response step of the running service: the response is
computed by the router from the request alone and the state is returned
unchanged, mirroring that neither handler touches any shared state. -/
def step (s : ServerState) (r : Request) : Response × ServerState :=
  (handle r, s)

/-- The service processing a sequence of requests in order, threading the
server state through. -/
def serve : ServerState → List Request → List Response
  | _, [] => []
  | s, r :: rs => (step s r).1 :: serve (step s r).2 rs

/-- Convenience: the well-formed `POST /add` request with integer fields. -/
def postAddReq (a b : Int) : Request :=
  ⟨"POST", "/add", some (Json.obj [("a", Json.int a), ("b", Json.int b)])⟩

/-- The `result` field of a response whose body is a JSON object. -/
def resultField (r : Response) : Option Json :=
  match r.body with
  | Json.obj fields => List.lookup "result" fields
  | _ => none

example : handle ⟨"POST", "/add",
    some (Json.obj [("a", Json.num ⟨5, 2, by decide, by decide⟩), ("b", Json.int 2)])⟩ =
    validationErrorResponse [ValidationError.intType "a"] := rfl

/-- Any error produced by validating field `name` carries location
`["body", name]` in the 422 body. -/
theorem validateField_error_loc (name : String) (fields : List (String × Json))
    (e : ValidationError) (h : validateField name fields = Except.error e) :
    ValidationError.loc e = ["body", name] := by
  unfold validateField at h
  cases hl : List.lookup name fields with
  | none =>
    rw [hl] at h
    have h2 : (Except.error (ValidationError.missing name) : Except ValidationError Int) =
        Except.error e := h
    injection h2 with h3
    rw [← h3]
    rfl
  | some v =>
    rw [hl] at h
    have h1 : (match coerceInt v with
        | none => Except.error (ValidationError.intType name)
        | some n => (Except.ok n : Except ValidationError Int)) = Except.error e := h
    cases hc : coerceInt v with
    | none =>
      rw [hc] at h1
      injection h1 with h3
      rw [← h3]
      rfl
    | some n =>
      rw [hc] at h1
      exact Except.noConfusion h1

/-- `POST /add` only ever answers 200 (validated request handled by `add`)
or 422 (validation failure). -/
theorem handleAdd_status (body : Json) :
    (handleAdd body).status = 200 ∨ (handleAdd body).status = 422 := by
  unfold handleAdd
  cases hv : validateAddRequest body with
  | ok data => left; rfl
  | error errs => right; rfl

/-- C1: for every pair of integers `a`, `b`, `POST /add` with JSON body
`{"a": a, "b": b}` returns status 200 and body
`{"a": a, "b": b, "result": a + b}`; in particular `{"a": 2, "b": 3}`
yields result 5 and `{"a": -1, "b": 1}` yields result 0. -/
theorem C1_add_correct :
    (∀ a b : Int, handle (postAddReq a b) =
      ⟨200, Json.obj [("a", Json.int a), ("b", Json.int b),
                      ("result", Json.int (a + b))]⟩) ∧
    handle (postAddReq 2 3) =
      ⟨200, Json.obj [("a", Json.int 2), ("b", Json.int 3), ("result", Json.int 5)]⟩ ∧
    handle (postAddReq (-1) 1) =
      ⟨200, Json.obj [("a", Json.int (-1)), ("b", Json.int 1), ("result", Json.int 0)]⟩ :=
  ⟨fun _ _ => rfl, rfl, rfl⟩

/-- C2 fails as stated: the body `{"a": "3", "b": 2}` has a value for `a`
that is not an integer (it is the JSON string `"3"`), yet the service
answers 200 with result 5 — pydantic lax validation coerces the numeric
string instead of rejecting it, so the addition handler is reached. -/
theorem C2_counterexample :
    handle ⟨"POST", "/add", some (Json.obj [("a", Json.str "3"), ("b", Json.int 2)])⟩ =
      ⟨200, Json.obj [("a", Json.int 3), ("b", Json.int 2), ("result", Json.int 5)]⟩ := rfl

/-- C2 (amended): for every `POST /add` body object in which field `a` or
field `b` is missing or fails pydantic lax integer coercion, the service
answers 422 with a structured error body naming each offending field by
its location, and the validation error response is returned directly, so
the addition handler is never reached. -/
theorem C2_amended_validation (fields : List (String × Json))
    (h : (∃ e, validateField "a" fields = Except.error e) ∨
         (∃ e, validateField "b" fields = Except.error e)) :
    ∃ errs, errs ≠ [] ∧
      validateAddRequest (Json.obj fields) = Except.error errs ∧
      handle ⟨"POST", "/add", some (Json.obj fields)⟩ = validationErrorResponse errs ∧
      (validationErrorResponse errs).status = 422 ∧
      (∀ e, validateField "a" fields = Except.error e →
        e ∈ errs ∧ ValidationError.loc e = ["body", "a"]) ∧
      (∀ e, validateField "b" fields = Except.error e →
        e ∈ errs ∧ ValidationError.loc e = ["body", "b"]) := by
  cases ha : validateField "a" fields with
  | ok a =>
    cases hb : validateField "b" fields with
    | ok b =>
      exfalso
      rcases h with ⟨e, he⟩ | ⟨e, he⟩
      · rw [ha] at he; exact Except.noConfusion he
      · rw [hb] at he; exact Except.noConfusion he
    | error eb =>
      have hv : validateAddRequest (Json.obj fields) = Except.error [eb] := by
        show combine (validateField "a" fields) (validateField "b" fields) = _
        rw [ha, hb]
        rfl
      refine ⟨[eb], by simp, hv, ?_, rfl, ?_, ?_⟩
      · show handleAdd (Json.obj fields) = _
        unfold handleAdd
        rw [hv]
      · intro e he
        exact Except.noConfusion he
      · intro e he
        injection he with he2
        rw [← he2]
        exact ⟨List.mem_singleton.mpr rfl, validateField_error_loc "b" fields eb hb⟩
  | error ea =>
    cases hb : validateField "b" fields with
    | ok b =>
      have hv : validateAddRequest (Json.obj fields) = Except.error [ea] := by
        show combine (validateField "a" fields) (validateField "b" fields) = _
        rw [ha, hb]
        rfl
      refine ⟨[ea], by simp, hv, ?_, rfl, ?_, ?_⟩
      · show handleAdd (Json.obj fields) = _
        unfold handleAdd
        rw [hv]
      · intro e he
        injection he with he2
        rw [← he2]
        exact ⟨List.mem_singleton.mpr rfl, validateField_error_loc "a" fields ea ha⟩
      · intro e he
        exact Except.noConfusion he
    | error eb =>
      have hv : validateAddRequest (Json.obj fields) = Except.error [ea, eb] := by
        show combine (validateField "a" fields) (validateField "b" fields) = _
        rw [ha, hb]
        rfl
      refine ⟨[ea, eb], by simp, hv, ?_, rfl, ?_, ?_⟩
      · show handleAdd (Json.obj fields) = _
        unfold handleAdd
        rw [hv]
      · intro e he
        injection he with he2
        rw [← he2]
        exact ⟨List.mem_cons_self ea [eb], validateField_error_loc "a" fields ea ha⟩
      · intro e he
        injection he with he2
        rw [← he2]
        exact ⟨List.mem_cons.mpr (Or.inr (List.mem_singleton.mpr rfl)),
               validateField_error_loc "b" fields eb hb⟩

/-- Witness for C2 (amended) at the empty body object, where both fields
are missing. -/
theorem C2_amended_validation_witness :
    ∃ errs, errs ≠ [] ∧
      validateAddRequest (Json.obj []) = Except.error errs ∧
      handle ⟨"POST", "/add", some (Json.obj [])⟩ = validationErrorResponse errs ∧
      (validationErrorResponse errs).status = 422 ∧
      (∀ e, validateField "a" [] = Except.error e →
        e ∈ errs ∧ ValidationError.loc e = ["body", "a"]) ∧
      (∀ e, validateField "b" [] = Except.error e →
        e ∈ errs ∧ ValidationError.loc e = ["body", "b"]) :=
  C2_amended_validation [] (Or.inl ⟨ValidationError.missing "a", rfl⟩)

/-- C3: `GET /ping`, whatever body is attached, returns status 200 with
exactly `{"status": "ok"}`; moreover a ping step leaves the server state
unchanged (no side effects) and is a total function (no failure mode). -/
theorem C3_ping_ok :
    (∀ b : Option Json, handle ⟨"GET", "/ping", b⟩ =
      ⟨200, Json.obj [("status", Json.str "ok")]⟩) ∧
    (∀ (s : ServerState) (b : Option Json),
      step s ⟨"GET", "/ping", b⟩ = (⟨200, Json.obj [("status", Json.str "ok")]⟩, s)) :=
  ⟨fun _ => rfl, fun _ _ => rfl⟩

/-- C4: `POST /add` with body `{"a": "x", "b": 2}` answers 422, and the
error body names field `a` through its location `["body", "a"]`. -/
theorem C4_bad_string_a :
    handle ⟨"POST", "/add", some (Json.obj [("a", Json.str "x"), ("b", Json.int 2)])⟩ =
      validationErrorResponse [ValidationError.intType "a"] ∧
    (validationErrorResponse [ValidationError.intType "a"]).status = 422 ∧
    ValidationError.loc (ValidationError.intType "a") = ["body", "a"] :=
  ⟨rfl, rfl, rfl⟩

/-- C5: `POST /add` with any body object lacking a key `b` answers 422 and
the error body names field `b` through its location `["body", "b"]`. -/
theorem C5_missing_b (fields : List (String × Json))
    (hb : List.lookup "b" fields = none) :
    ∃ errs, handle ⟨"POST", "/add", some (Json.obj fields)⟩ = validationErrorResponse errs ∧
      (validationErrorResponse errs).status = 422 ∧
      ValidationError.missing "b" ∈ errs ∧
      ValidationError.loc (ValidationError.missing "b") = ["body", "b"] := by
  have hvb : validateField "b" fields = Except.error (ValidationError.missing "b") := by
    unfold validateField
    rw [hb]
  cases ha : validateField "a" fields with
  | ok a =>
    have hv : validateAddRequest (Json.obj fields) =
        Except.error [ValidationError.missing "b"] := by
      show combine (validateField "a" fields) (validateField "b" fields) = _
      rw [ha, hvb]
      rfl
    refine ⟨[ValidationError.missing "b"], ?_, rfl, List.mem_singleton.mpr rfl, rfl⟩
    show handleAdd (Json.obj fields) = _
    unfold handleAdd
    rw [hv]
  | error ea =>
    have hv : validateAddRequest (Json.obj fields) =
        Except.error [ea, ValidationError.missing "b"] := by
      show combine (validateField "a" fields) (validateField "b" fields) = _
      rw [ha, hvb]
      rfl
    refine ⟨[ea, ValidationError.missing "b"], ?_,
      rfl, List.mem_cons.mpr (Or.inr (List.mem_singleton.mpr rfl)), rfl⟩
    show handleAdd (Json.obj fields) = _
    unfold handleAdd
    rw [hv]

/-- Witness for C5 at the body `{"a": 1}`. -/
theorem C5_missing_b_witness :
    ∃ errs, handle ⟨"POST", "/add", some (Json.obj [("a", Json.int 1)])⟩ =
        validationErrorResponse errs ∧
      (validationErrorResponse errs).status = 422 ∧
      ValidationError.missing "b" ∈ errs ∧
      ValidationError.loc (ValidationError.missing "b") = ["body", "b"] :=
  C5_missing_b [("a", Json.int 1)] rfl

/-- C6: every request to `/add` or `/ping` gets a response from the total
router function, and that response is a success or a client error (never a
server error); on the defined routes it is exactly 200, or 422 for a
`POST /add` validation failure, and `GET /ping` is always 200. -/
theorem C6_total_no_fatal (r : Request) (h : r.path = "/add" ∨ r.path = "/ping") :
    ((handle r).status = 200 ∨ (400 ≤ (handle r).status ∧ (handle r).status < 500)) ∧
    (r.method = "POST" → r.path = "/add" →
      ((handle r).status = 200 ∨ (handle r).status = 422)) ∧
    (r.method = "GET" → r.path = "/ping" → (handle r).status = 200) := by
  obtain ⟨m, p, b⟩ := r
  rcases h with h | h
  · subst h
    have hh : handle ⟨m, "/add", b⟩ =
        if m = "POST" then handleAdd (b.getD Json.null) else methodNotAllowed := rfl
    rw [hh]
    by_cases hm : m = "POST"
    · rw [if_pos hm]
      refine ⟨?_, fun _ _ => handleAdd_status (b.getD Json.null), ?_⟩
      · rcases handleAdd_status (b.getD Json.null) with h2 | h2
        · exact Or.inl h2
        · refine Or.inr ⟨?_, ?_⟩
          · rw [h2]; norm_num
          · rw [h2]; norm_num
      · intro _ hp
        have hp2 : ("/add" : String) = "/ping" := hp
        exact absurd hp2 (by decide)
    · rw [if_neg hm]
      refine ⟨Or.inr ⟨by decide, by decide⟩, ?_, ?_⟩
      · intro hm2 _
        have hm3 : m = "POST" := hm2
        exact absurd hm3 hm
      · intro _ hp
        have hp2 : ("/add" : String) = "/ping" := hp
        exact absurd hp2 (by decide)
  · subst h
    have hh : handle ⟨m, "/ping", b⟩ =
        if m = "GET" then ping else methodNotAllowed := rfl
    rw [hh]
    by_cases hm : m = "GET"
    · rw [if_pos hm]
      refine ⟨Or.inl rfl, ?_, fun _ _ => rfl⟩
      intro _ hp
      have hp2 : ("/ping" : String) = "/add" := hp
      exact absurd hp2 (by decide)
    · rw [if_neg hm]
      refine ⟨Or.inr ⟨by decide, by decide⟩, ?_, ?_⟩
      · intro _ hp
        have hp2 : ("/ping" : String) = "/add" := hp
        exact absurd hp2 (by decide)
      · intro hm2 _
        have hm3 : m = "GET" := hm2
        exact absurd hm3 hm

/-- Witness for C6 at `GET /ping`. -/
theorem C6_total_no_fatal_witness :
    ((handle ⟨"GET", "/ping", none⟩).status = 200 ∨
      (400 ≤ (handle ⟨"GET", "/ping", none⟩).status ∧
        (handle ⟨"GET", "/ping", none⟩).status < 500)) ∧
    ((("GET" : String) = "POST") → (("/ping" : String) = "/add") →
      ((handle ⟨"GET", "/ping", none⟩).status = 200 ∨
        (handle ⟨"GET", "/ping", none⟩).status = 422)) ∧
    ((("GET" : String) = "GET") → (("/ping" : String) = "/ping") →
      (handle ⟨"GET", "/ping", none⟩).status = 200) :=
  C6_total_no_fatal ⟨"GET", "/ping", none⟩ (Or.inr rfl)

/-- C7: request handling is stateless and deterministic — a step's
response does not depend on the server state, a step never changes the
server state, and the response to the last request of any sequence is the
same regardless of the earlier requests. -/
theorem C7_stateless_deterministic :
    (∀ (s t : ServerState) (r : Request), (step s r).1 = (step t r).1) ∧
    (∀ (s : ServerState) (r : Request), (step s r).2 = s) ∧
    (∀ (s : ServerState) (rs : List Request) (r : Request),
      serve s (rs ++ [r]) = serve s rs ++ [handle r]) := by
  refine ⟨fun _ _ _ => rfl, fun _ _ => rfl, ?_⟩
  intro s rs r
  induction rs generalizing s with
  | nil => rfl
  | cons q qs ih => simp [serve, step, ih]

/-- C8: the `result` field is the exact mathematical sum over ℤ (Python
integers are arbitrary precision, so no wrap-around or overflow occurs),
illustrated far beyond any fixed machine width at a = b = 2^100. -/
theorem C8_exact_integer_sum :
    (∀ a b : Int, resultField (handle (postAddReq a b)) = some (Json.int (a + b))) ∧
    resultField (handle (postAddReq (2 ^ 100) (2 ^ 100))) = some (Json.int (2 ^ 101)) := by
  refine ⟨fun _ _ => rfl, ?_⟩
  have h : ((2 : Int) ^ 100 + 2 ^ 100) = 2 ^ 101 := by ring
  have h2 : resultField (handle (postAddReq (2 ^ 100) (2 ^ 100))) =
      some (Json.int (2 ^ 100 + 2 ^ 100)) := rfl
  rw [h2, h]

/-- C9 fails as stated for booleans: `{"a": true, "b": 2}` is not accepted
with 200 — pydantic v2 rejects booleans for `int` fields, so the service
answers 422 naming field `a`. -/
theorem C9_counterexample :
    handle ⟨"POST", "/add", some (Json.obj [("a", Json.bool true), ("b", Json.int 2)])⟩ =
      validationErrorResponse [ValidationError.intType "a"] := rfl

/-- C9 (amended): bodies whose `a` or `b` is not a JSON integer can be
accepted with 200 under pydantic lax coercion — the numeric string `"3"`
and the integral float `2.0` are — while booleans can never be coerced
(pydantic v2 rejects bool for int), and any body object whose two fields
both coerce is accepted with the coerced values. -/
theorem C9_lax_coercion :
    handle ⟨"POST", "/add", some (Json.obj [("a", Json.str "3"), ("b", Json.int 2)])⟩ =
      ⟨200, Json.obj [("a", Json.int 3), ("b", Json.int 2), ("result", Json.int 5)]⟩ ∧
    handle ⟨"POST", "/add", some (Json.obj [("a", Json.num 2), ("b", Json.int 3)])⟩ =
      ⟨200, Json.obj [("a", Json.int 2), ("b", Json.int 3), ("result", Json.int 5)]⟩ ∧
    (∀ x : Bool, coerceInt (Json.bool x) = none) ∧
    (∀ (fields : List (String × Json)) (va vb : Json) (a b : Int),
      List.lookup "a" fields = some va → coerceInt va = some a →
      List.lookup "b" fields = some vb → coerceInt vb = some b →
      handle ⟨"POST", "/add", some (Json.obj fields)⟩ =
        ⟨200, Json.obj [("a", Json.int a), ("b", Json.int b),
                        ("result", Json.int (a + b))]⟩) := by
  refine ⟨rfl, rfl, fun _ => rfl, ?_⟩
  intro fields va vb a b hla hca hlb hcb
  have hva : validateField "a" fields = Except.ok a := by
    unfold validateField
    rw [hla]
    show (match coerceInt va with
      | none => Except.error (ValidationError.intType "a")
      | some n => (Except.ok n : Except ValidationError Int)) = _
    rw [hca]
  have hvb : validateField "b" fields = Except.ok b := by
    unfold validateField
    rw [hlb]
    show (match coerceInt vb with
      | none => Except.error (ValidationError.intType "b")
      | some n => (Except.ok n : Except ValidationError Int)) = _
    rw [hcb]
  have hv : validateAddRequest (Json.obj fields) = Except.ok ⟨a, b⟩ := by
    show combine (validateField "a" fields) (validateField "b" fields) = _
    rw [hva, hvb]
    rfl
  show handleAdd (Json.obj fields) = _
  unfold handleAdd
  rw [hv]
  rfl

/-- Witness for C9 (amended) at the body `{"a": "3", "b": 2}`. -/
theorem C9_lax_coercion_witness :
    handle ⟨"POST", "/add", some (Json.obj [("a", Json.str "3"), ("b", Json.int 2)])⟩ =
      ⟨200, Json.obj [("a", Json.int 3), ("b", Json.int 2), ("result", Json.int 5)]⟩ :=
  C9_lax_coercion.2.2.2 [("a", Json.str "3"), ("b", Json.int 2)]
    (Json.str "3") (Json.int 2) 3 2 rfl rfl rfl rfl

/-- C10: every accepted `POST /add` request is answered with a body holding
exactly the three fields `a`, `b`, `result`, where `a` and `b` echo the
validated request unchanged. -/
theorem C10_echo_frame (body : Json) (data : AddRequest)
    (h : validateAddRequest body = Except.ok data) :
    handleAdd body = ⟨200, Json.obj [("a", Json.int data.a), ("b", Json.int data.b),
      ("result", Json.int (data.a + data.b))]⟩ := by
  unfold handleAdd
  rw [h]
  rfl

/-- Witness for C10 at the body `{"a": 1, "b": 2}`. -/
theorem C10_echo_frame_witness :
    handleAdd (Json.obj [("a", Json.int 1), ("b", Json.int 2)]) =
      ⟨200, Json.obj [("a", Json.int 1), ("b", Json.int 2), ("result", Json.int 3)]⟩ :=
  C10_echo_frame (Json.obj [("a", Json.int 1), ("b", Json.int 2)]) ⟨1, 2⟩ rfl

end SimpleApi
